import Mathlib

/-!
Shallow embedding of the confluence-backend gateway server
(src/unnamed/part_000, the current revision; src/server.js is the older
near-identical revision).  The embedding models the
POST /generate-confluence pipeline: multer upload intake with its
field-name filter and disk-storage filename rule, required-field
validation, outbound multipart payload assembly, the axios outcome
classification in the catch block, page-URL extraction, and the
temp-file cleanup performed on each path.
-/

namespace ConfluenceBackend

/-- Allowed multipart file field names (part_000 line 42). -/
def allowedFields : List String := ["tddIrdFiles", "postmanFiles", "commFiles", "files"]

/-- The multer diskStorage filename callback (part_000 line 34):
the stored file name is `Date.now() + '-' + file.originalname`. -/
def storedFilename (now : Nat) (originalname : String) : String :=
  Nat.repr now ++ "-" ++ originalname

/-- The multer fileFilter (part_000 lines 40-48): accept a part whose
field name is in the allow-list, otherwise reject the request with an
error naming the field. -/
def fileFilter (fieldname : String) : Except String Unit :=
  if allowedFields.contains fieldname then Except.ok ()
  else Except.error ("Unexpected field: " ++ fieldname)

/-- One incoming multipart file part, before storage. -/
structure FilePart where
  fieldname : String
  originalname : String
  mimetype : String
  deriving DecidableEq

/-- One stored upload as multer presents it to the handler
(`req.files` entry): field name, original name, MIME type and the
path in the uploads/ directory. -/
structure UploadedFile where
  fieldname : String
  originalname : String
  mimetype : String
  path : String
  deriving DecidableEq

/-- Store a part: multer writes it under
`uploads/` ++ `storedFilename` (part_000 lines 25-36).  The `now`
argument is the value of `Date.now()` observed at that write. -/
def storeOne (p : FilePart) (now : Nat) : UploadedFile :=
  { fieldname := p.fieldname
    originalname := p.originalname
    mimetype := p.mimetype
    path := "uploads/" ++ storedFilename now p.originalname }

/-- The multer `upload.any()` intake over the file parts of a request,
each paired with the `Date.now()` value observed when it is written.
Parts are processed in stream order; the fileFilter runs before each
write; when it rejects, multer aborts the request with that error and
removes every file it already stored (multer removeUploadedFiles), so
the net result of an erroring intake retains no files. -/
def intake : List (FilePart × Nat) → Except String (List UploadedFile)
  | [] => Except.ok []
  | (p, now) :: rest =>
    match fileFilter p.fieldname with
    | Except.error e => Except.error e
    | Except.ok _ => (intake rest).map (fun fs => storeOne p now :: fs)

/-- JS truthiness of an optional text-field value: `undefined` and the
empty string are falsy, every other string is truthy. -/
def truthy : Option String → Bool
  | none => false
  | some s => s ≠ ""

/-- JS `a || b` for an optional string `a` (undefined and "" fall
through to `b`). -/
def jsOr (a : Option String) (b : String) : String :=
  match a with
  | some s => if s = "" then b else s
  | none => b

/-- The parsed text-field portion of `req.body`: an association list
from field name to value. -/
abbrev ReqBody := List (String × String)

/-- Reading one text field from `req.body` (destructuring in part_000
lines 93-110): the field value, or none when absent. -/
def getField (body : ReqBody) (k : String) : Option String :=
  (body.find? (fun p => p.1 == k)).map (fun p => p.2)

/-- The sixteen recognized text-field names destructured from
`req.body` (part_000 lines 93-110). -/
def recognizedTextFields : List String :=
  ["apiType", "fetchPropertyFile", "selectedGitOrg", "wikiSpaceKey",
   "pageToBeCreatedTitle", "pageToBeCreatedParentPageTitle", "appName",
   "l0ProductionSupport", "l0ProductionSupportEmail",
   "l2MulesoftSupport", "l2MulesoftSupportEmail",
   "integrationDevTeam", "integrationDevTeamEmail",
   "businessTeam", "businessTeamEmail", "hasFiles"]

/-- The `pageData` object sent to Mulesoft (part_000 lines 160-177):
fifteen text fields passed through, plus `hasFiles` computed from the
accepted file count (part_000 line 176) — the client-supplied
`hasFiles` text field is not used here. -/
structure PageData where
  apiType : Option String
  fetchPropertyFile : Option String
  selectedGitOrg : Option String
  wikiSpaceKey : Option String
  pageToBeCreatedTitle : Option String
  pageToBeCreatedParentPageTitle : Option String
  appName : Option String
  l0ProductionSupport : Option String
  l0ProductionSupportEmail : Option String
  l2MulesoftSupport : Option String
  l2MulesoftSupportEmail : Option String
  integrationDevTeam : Option String
  integrationDevTeamEmail : Option String
  businessTeam : Option String
  businessTeamEmail : Option String
  hasFiles : Bool
  deriving DecidableEq

/-- Build `pageData` from the request body and the accepted files
(part_000 lines 160-177).  `hasFiles` is
`req.files && req.files.length > 0`; with `upload.any()` `req.files`
is always an array, so this is the boolean `length > 0`. -/
def mkPageData (body : ReqBody) (files : List UploadedFile) : PageData :=
  { apiType := getField body "apiType"
    fetchPropertyFile := getField body "fetchPropertyFile"
    selectedGitOrg := getField body "selectedGitOrg"
    wikiSpaceKey := getField body "wikiSpaceKey"
    pageToBeCreatedTitle := getField body "pageToBeCreatedTitle"
    pageToBeCreatedParentPageTitle := getField body "pageToBeCreatedParentPageTitle"
    appName := getField body "appName"
    l0ProductionSupport := getField body "l0ProductionSupport"
    l0ProductionSupportEmail := getField body "l0ProductionSupportEmail"
    l2MulesoftSupport := getField body "l2MulesoftSupport"
    l2MulesoftSupportEmail := getField body "l2MulesoftSupportEmail"
    integrationDevTeam := getField body "integrationDevTeam"
    integrationDevTeamEmail := getField body "integrationDevTeamEmail"
    businessTeam := getField body "businessTeam"
    businessTeamEmail := getField body "businessTeamEmail"
    hasFiles := decide (0 < files.length) }

/-- One part of the outbound multipart payload: either the JSON `data`
part (`formData.append('data', JSON.stringify(pageData))`, whose bytes
are a function of the `PageData` value) or one file part carrying the
append field name, the declared filename (the file original name), the
declared content type (the file MIME type) and the streamed source
path. -/
inductive PayloadPart where
  | dataPart (data : PageData)
  | filePart (fieldname : String) (filename : String) (contentType : String) (sourcePath : String)
  deriving DecidableEq

/-- The file part appended for one stored file under a category field
name (part_000 lines 203-206 and analogous blocks). -/
def filePartOf (field : String) (f : UploadedFile) : PayloadPart :=
  PayloadPart.filePart field f.originalname f.mimetype f.path

/-- Outbound payload assembly (part_000 lines 156-256): the `data`
part first, then the four category groups in fixed order
tddIrdFiles, postmanFiles, commFiles, files, each group being the
arrival-order filter of `req.files` by field name.  (The
`length > 0` guards in the source only gate console logging; a
forEach over an empty filter appends nothing.) -/
def assemblePayload (body : ReqBody) (files : List UploadedFile) : List PayloadPart :=
  PayloadPart.dataPart (mkPageData body files) ::
    ((files.filter (fun f => f.fieldname == "tddIrdFiles")).map (filePartOf "tddIrdFiles") ++
     (files.filter (fun f => f.fieldname == "postmanFiles")).map (filePartOf "postmanFiles") ++
     (files.filter (fun f => f.fieldname == "commFiles")).map (filePartOf "commFiles") ++
     (files.filter (fun f => f.fieldname == "files")).map (filePartOf "files"))

/-- The character class of the JS regex `\s`. -/
def isJsWhitespace (c : Char) : Bool :=
  c.toNat = 0x9 || c.toNat = 0xa || c.toNat = 0xb || c.toNat = 0xc || c.toNat = 0xd ||
  c.toNat = 0x20 || c.toNat = 0xa0 || c.toNat = 0x1680 ||
  (0x2000 ≤ c.toNat && c.toNat ≤ 0x200a) ||
  c.toNat = 0x2028 || c.toNat = 0x2029 || c.toNat = 0x202f || c.toNat = 0x205f ||
  c.toNat = 0x3000 || c.toNat = 0xfeff

/-- Scanner for `replace(/\s+/g, '+')`: the flag records whether the
previous character was inside a whitespace run already replaced. -/
def plusifyAux : Bool → List Char → List Char
  | _, [] => []
  | inRun, c :: cs =>
    if isJsWhitespace c then
      if inRun then plusifyAux true cs else '+' :: plusifyAux true cs
    else c :: plusifyAux false cs

/-- `title.replace(/\s+/g, '+')` (part_000 line 286): every maximal
whitespace run becomes a single `+`. -/
def plusify (s : String) : String :=
  String.mk (plusifyAux false s.data)

/-- The fallback page URL template (part_000 line 286). -/
def fallbackUrl (wikiSpaceKey title : String) : String :=
  "https://wiki.intel.com/display/" ++ wikiSpaceKey ++ "/" ++ plusify title

/-- The URL-bearing fields of the upstream response body
(part_000 lines 282-285); each is a string or absent. -/
structure UpstreamBody where
  pageURL : Option String
  pageUrl : Option String
  confluencePageUrl : Option String
  url : Option String
  deriving DecidableEq

/-- Page-URL extraction (part_000 lines 282-286): a JS `||` chain over
the four fields, falling back to the template. -/
def extractPageUrl (d : UpstreamBody) (wikiSpaceKey title : String) : String :=
  jsOr d.pageURL (jsOr d.pageUrl (jsOr d.confluencePageUrl (jsOr d.url (fallbackUrl wikiSpaceKey title))))

/-- Terminal outcome of the awaited `axios.post` (part_000 lines
265-275 and catch, lines 307-349): an HTTP success body, an HTTP error
response (`error.response`), no response received (`error.request`),
or a failure before the request was sent (the final else branch). -/
inductive AxiosOutcome where
  | success (data : UpstreamBody)
  | httpError (status : Nat) (data : String) (message : String)
  | noResponse (message : String)
  | setupFailure (message : String)
  deriving DecidableEq

/-- Shapes of the JSON bodies the handler sends to the client.
`bodyMissing` and `validationError` carry status:"error" and a
message (part_000 lines 79-89, 113-125); `success` is
{message, pageUrl} (lines 302-305); `upstreamError` is
{status:"error", error, details, message} (lines 328-333);
`networkError` and `setupError` are the two 500 bodies of the catch
block (lines 336-348); `expressDefault` is the page produced by the
Express default error handler when a middleware error reaches it. -/
inductive RespBody where
  | bodyMissing (message : String)
  | validationError (message : String)
  | success (message : String) (pageUrl : String)
  | upstreamError (error : String) (details : String) (message : String)
  | networkError (error : String) (message : String)
  | setupError (error : String) (message : String)
  | expressDefault (message : String)
  deriving DecidableEq

/-- A client response: HTTP status plus body. -/
structure ClientResponse where
  status : Nat
  body : RespBody
  deriving DecidableEq

/-- Temporary-store contents after the unlink calls: the written
paths minus the deleted ones. -/
def storeAfter (written deleted : List String) : List String :=
  written.filter (fun p => !(deleted.contains p))

/-- Everything observable about one handler run: the client response,
whether the upstream call was sent, the outbound payload (none when
assembly was never reached), the unlink calls made (one entry per
`fs.unlinkSync`), and the uploads/ contents afterwards. -/
structure HandlerResult where
  response : ClientResponse
  upstreamCalled : Bool
  payload : Option (List PayloadPart)
  deletedPaths : List String
  finalStore : List String
  deriving DecidableEq

/-- The POST /generate-confluence handler body (part_000 lines
60-350), given the parsed text body (none when `req.body` is not an
object), the accepted files, and the outcome of the axios call.  The
early returns (lines 79-89, 113-125) respond without deleting the
staged files; the success path (lines 290-305) and the catch block
(lines 312-321) unlink each staged file once before responding. -/
def handler (bodyOpt : Option ReqBody) (files : List UploadedFile) (outcome : AxiosOutcome) : HandlerResult :=
  let written := files.map (fun f => f.path)
  match bodyOpt with
  | none =>
    { response := { status := 400, body := RespBody.bodyMissing "Request body is missing or malformed. Make sure you are sending form data correctly." }
      upstreamCalled := false
      payload := none
      deletedPaths := []
      finalStore := storeAfter written [] }
  | some body =>
    if truthy (getField body "pageToBeCreatedTitle") = false then
      { response := { status := 400, body := RespBody.validationError "pageToBeCreatedTitle is required" }
        upstreamCalled := false
        payload := none
        deletedPaths := []
        finalStore := storeAfter written [] }
    else if truthy (getField body "wikiSpaceKey") = false then
      { response := { status := 400, body := RespBody.validationError "wikiSpaceKey is required" }
        upstreamCalled := false
        payload := none
        deletedPaths := []
        finalStore := storeAfter written [] }
    else
      let payload := assemblePayload body files
      match outcome with
      | AxiosOutcome.success d =>
        let pageUrl := extractPageUrl d ((getField body "wikiSpaceKey").getD "") ((getField body "pageToBeCreatedTitle").getD "")
        { response := { status := 200, body := RespBody.success "Confluence page generated successfully" pageUrl }
          upstreamCalled := true
          payload := some payload
          deletedPaths := written
          finalStore := storeAfter written written }
      | AxiosOutcome.httpError s dta m =>
        { response := { status := s, body := RespBody.upstreamError "Mulesoft API error" dta m }
          upstreamCalled := true
          payload := some payload
          deletedPaths := written
          finalStore := storeAfter written written }
      | AxiosOutcome.noResponse _ =>
        { response := { status := 500, body := RespBody.networkError "No response from Mulesoft API" "Network or timeout error" }
          upstreamCalled := true
          payload := some payload
          deletedPaths := written
          finalStore := storeAfter written written }
      | AxiosOutcome.setupFailure m =>
        { response := { status := 500, body := RespBody.setupError "Failed to generate Confluence page" m }
          upstreamCalled := false
          payload := some payload
          deletedPaths := written
          finalStore := storeAfter written written }

/-- The whole route: multer intake first, then the handler.  When the
fileFilter rejects a part, multer removes the files it already stored
and passes the plain Error to `next`; no error-handling middleware is
registered, so the Express default error handler answers with status
500 (the Error carries no status) and the route handler never runs. -/
def pipeline (textBody : ReqBody) (parts : List (FilePart × Nat)) (outcome : AxiosOutcome) : HandlerResult :=
  match intake parts with
  | Except.error e =>
    { response := { status := 500, body := RespBody.expressDefault e }
      upstreamCalled := false
      payload := none
      deletedPaths := []
      finalStore := [] }
  | Except.ok files => handler (some textBody) files outcome

/-! ## Helper lemmas -/

/-- Reading a field other than the one consed on front skips it. -/
theorem getField_cons_ne (k k' v : String) (body : ReqBody) (h : (k == k') = false) :
    getField ((k, v) :: body) k' = getField body k' := by
  simp only [getField, List.find?]
  simp [h]

/-- A file whose field name differs from `s` is never counted in the
filter of `files` by field name `s`. -/
theorem count_filter_ne (a : UploadedFile) (files : List UploadedFile) (s : String)
    (h : a.fieldname ≠ s) :
    List.count a (files.filter (fun f => f.fieldname == s)) = 0 := by
  rw [List.count_eq_zero]
  intro hmem
  exact h (by simpa using (List.mem_filter.mp hmem).2)

/-! ## Claims -/

/-- The staged upload of the C1 failing input. -/
def c1StagedFile : UploadedFile :=
  { fieldname := "tddIrdFiles", originalname := "tdd.docx",
    mimetype := "application/octet-stream", path := "uploads/1700000000000-tdd.docx" }

/-- C1: the claim says every terminal outcome deletes all staged
files, validation failure included.  At the failing input — a request
staging one tddIrdFiles upload but missing pageToBeCreatedTitle — the
validation early return (part_000 lines 113-118) responds 400 with no
unlink call, so the staged file remains in uploads/. -/
theorem c1_validation_path_leaves_staged_file :
    (handler (some [("wikiSpaceKey", "ENG")]) [c1StagedFile] (AxiosOutcome.noResponse "unused")).response.status = 400 ∧
    (handler (some [("wikiSpaceKey", "ENG")]) [c1StagedFile] (AxiosOutcome.noResponse "unused")).deletedPaths = [] ∧
    (handler (some [("wikiSpaceKey", "ENG")]) [c1StagedFile] (AxiosOutcome.noResponse "unused")).finalStore = ["uploads/1700000000000-tdd.docx"] := by
  decide

/-- C2: a request whose pageToBeCreatedTitle or wikiSpaceKey is
missing or empty is answered with status 400 and a status:"error"
body naming the missing field (title checked first), and the upstream
call is never made. -/
theorem c2_missing_required_field_rejected (body : ReqBody) (files : List UploadedFile)
    (outcome : AxiosOutcome)
    (h : truthy (getField body "pageToBeCreatedTitle") = false ∨
         truthy (getField body "wikiSpaceKey") = false) :
    (handler (some body) files outcome).response.status = 400 ∧
    (handler (some body) files outcome).response.body =
      (if truthy (getField body "pageToBeCreatedTitle") = false
       then RespBody.validationError "pageToBeCreatedTitle is required"
       else RespBody.validationError "wikiSpaceKey is required") ∧
    (handler (some body) files outcome).upstreamCalled = false := by
  by_cases ht : truthy (getField body "pageToBeCreatedTitle") = false
  · simp [handler, ht]
  · have hs : truthy (getField body "wikiSpaceKey") = false := h.resolve_left ht
    simp [handler, ht, hs]

/-- Witness for c2_missing_required_field_rejected at a concrete
request missing the title. -/
theorem c2_witness :
    (handler (some [("wikiSpaceKey", "ENG")]) [] (AxiosOutcome.noResponse "x")).response.status = 400 ∧
    (handler (some [("wikiSpaceKey", "ENG")]) [] (AxiosOutcome.noResponse "x")).response.body =
      (if truthy (getField [("wikiSpaceKey", "ENG")] "pageToBeCreatedTitle") = false
       then RespBody.validationError "pageToBeCreatedTitle is required"
       else RespBody.validationError "wikiSpaceKey is required") ∧
    (handler (some [("wikiSpaceKey", "ENG")]) [] (AxiosOutcome.noResponse "x")).upstreamCalled = false :=
  c2_missing_required_field_rejected [("wikiSpaceKey", "ENG")] [] (AxiosOutcome.noResponse "x")
    (Or.inl (by decide))

/-- C8: the hasFiles flag of the outbound metadata part is true
exactly when the accepted file count is positive, and prepending a
client-supplied hasFiles text field to the body does not change the
metadata part at all. -/
theorem c8_hasfiles_computed (body : ReqBody) (files : List UploadedFile) (v : String) :
    ((mkPageData body files).hasFiles = true ↔ 0 < files.length) ∧
    mkPageData (("hasFiles", v) :: body) files = mkPageData body files := by
  constructor
  · simp [mkPageData]
  · unfold mkPageData
    simp only [PageData.mk.injEq]
    repeat' constructor

/-- Concrete request body for the C9 scenario. -/
def c9Body : ReqBody := [("pageToBeCreatedTitle", "Service X"), ("wikiSpaceKey", "ENG")]

/-- Upstream body carrying pageURL for the C9 scenario. -/
def c9Upstream : UpstreamBody :=
  { pageURL := some "https://wiki/x", pageUrl := none, confluencePageUrl := none, url := none }

/-- C9 counterexample: on upstream success the handler responds 200
with body message "Confluence page generated successfully"
(part_000 line 303), not the string "success" the claim demands. -/
theorem c9_counterexample_message :
    (handler (some c9Body) [] (AxiosOutcome.success c9Upstream)).response =
      { status := 200,
        body := RespBody.success "Confluence page generated successfully" "https://wiki/x" } ∧
    (handler (some c9Body) [] (AxiosOutcome.success c9Upstream)).response.body ≠
      RespBody.success "success" "https://wiki/x" := by
  decide

/-- C9 amended: on upstream HTTP success the response has status 200
and body exactly of the shape with message
"Confluence page generated successfully" and pageUrl the extracted or
fallback resource URL. -/
theorem c9_amended_success_response (body : ReqBody) (files : List UploadedFile) (d : UpstreamBody)
    (ht : truthy (getField body "pageToBeCreatedTitle") = true)
    (hs : truthy (getField body "wikiSpaceKey") = true) :
    (handler (some body) files (AxiosOutcome.success d)).response =
      { status := 200,
        body := RespBody.success "Confluence page generated successfully"
          (extractPageUrl d ((getField body "wikiSpaceKey").getD "")
            ((getField body "pageToBeCreatedTitle").getD "")) } := by
  simp [handler, ht, hs]

/-- Witness for c9_amended_success_response at the C9 scenario input. -/
theorem c9_witness :
    (handler (some c9Body) [] (AxiosOutcome.success c9Upstream)).response =
      { status := 200,
        body := RespBody.success "Confluence page generated successfully"
          (extractPageUrl c9Upstream ((getField c9Body "wikiSpaceKey").getD "")
            ((getField c9Body "pageToBeCreatedTitle").getD "")) } :=
  c9_amended_success_response c9Body [] c9Upstream (by decide) (by decide)

/-- C6: each failure of the forwarded call maps to exactly one of the
three catch-block responses (part_000 lines 307-349): the upstream
status with the upstreamError body, 500 with the networkError body,
or 500 with the setupError body. -/
theorem c6_error_mapping (body : ReqBody) (files : List UploadedFile)
    (s : Nat) (dta m m2 m3 : String)
    (ht : truthy (getField body "pageToBeCreatedTitle") = true)
    (hs : truthy (getField body "wikiSpaceKey") = true) :
    (handler (some body) files (AxiosOutcome.httpError s dta m)).response =
      { status := s, body := RespBody.upstreamError "Mulesoft API error" dta m } ∧
    (handler (some body) files (AxiosOutcome.noResponse m2)).response =
      { status := 500,
        body := RespBody.networkError "No response from Mulesoft API" "Network or timeout error" } ∧
    (handler (some body) files (AxiosOutcome.setupFailure m3)).response =
      { status := 500, body := RespBody.setupError "Failed to generate Confluence page" m3 } := by
  refine ⟨?_, ?_, ?_⟩ <;> simp [handler, ht, hs]

/-- Witness for c6_error_mapping at a concrete valid request. -/
theorem c6_witness :
    (handler (some c9Body) [] (AxiosOutcome.httpError 502 "bad gateway" "Request failed")).response =
      { status := 502, body := RespBody.upstreamError "Mulesoft API error" "bad gateway" "Request failed" } ∧
    (handler (some c9Body) [] (AxiosOutcome.noResponse "timeout")).response =
      { status := 500,
        body := RespBody.networkError "No response from Mulesoft API" "Network or timeout error" } ∧
    (handler (some c9Body) [] (AxiosOutcome.setupFailure "boom")).response =
      { status := 500, body := RespBody.setupError "Failed to generate Confluence page" "boom" } :=
  c6_error_mapping c9Body [] 502 "bad gateway" "Request failed" "timeout" "boom" (by decide) (by decide)

/-- Written from the C5 claim text: the first PRESENT field of the
upstream body in priority order pageURL, pageUrl, confluencePageUrl,
url; the template only when none is present. -/
def claimFirstPresentUrl (d : UpstreamBody) (wikiSpaceKey title : String) : String :=
  match d.pageURL with
  | some s => s
  | none =>
    match d.pageUrl with
    | some s => s
    | none =>
      match d.confluencePageUrl with
      | some s => s
      | none =>
        match d.url with
        | some s => s
        | none => fallbackUrl wikiSpaceKey title

/-- Written from the amended C5 claim: the first present AND
non-empty field in the same priority order; the template when every
field is absent or empty. -/
def firstNonEmptyField : List (Option String) → Option String
  | [] => none
  | none :: rest => firstNonEmptyField rest
  | some s :: rest => if s = "" then firstNonEmptyField rest else some s

/-- The amended C5 page URL: first present non-empty field, else the
fallback template. -/
def claimFirstNonEmptyUrl (d : UpstreamBody) (wikiSpaceKey title : String) : String :=
  (firstNonEmptyField [d.pageURL, d.pageUrl, d.confluencePageUrl, d.url]).getD
    (fallbackUrl wikiSpaceKey title)

/-- Upstream body with a present-but-empty pageURL field. -/
def c5Upstream : UpstreamBody :=
  { pageURL := some "", pageUrl := some "https://wiki/real", confluencePageUrl := none, url := none }

/-- C5 counterexample: the source chains the fields with JS `||`,
which skips a present-but-empty pageURL, while the claim demands the
first PRESENT field.  On a body with pageURL present and empty the
two disagree. -/
theorem c5_counterexample_empty_field_skipped :
    extractPageUrl c5Upstream "ENG" "Service X" = "https://wiki/real" ∧
    claimFirstPresentUrl c5Upstream "ENG" "Service X" = "" ∧
    extractPageUrl c5Upstream "ENG" "Service X" ≠ claimFirstPresentUrl c5Upstream "ENG" "Service X" := by
  decide

/-- The source `||` chain equals the first-present-non-empty
extraction with template fallback. -/
theorem extractPageUrl_eq_firstNonEmpty (d : UpstreamBody) (sk title : String) :
    extractPageUrl d sk title = claimFirstNonEmptyUrl d sk title := by
  obtain ⟨p1, p2, p3, p4⟩ := d
  unfold extractPageUrl claimFirstNonEmptyUrl
  cases p1 <;> cases p2 <;> cases p3 <;> cases p4 <;>
    simp [jsOr, firstNonEmptyField] <;> split_ifs <;>
    simp [firstNonEmptyField, *]

/-- C5 amended: on upstream HTTP success the response pageUrl is the
first present AND non-empty field of the upstream body in the
priority order pageURL, pageUrl, confluencePageUrl, url; when every
field is absent or empty it is the deterministic template over the
space key and title with each whitespace run replaced by a plus. -/
theorem c5_amended_first_nonempty_or_fallback (body : ReqBody) (files : List UploadedFile)
    (d : UpstreamBody)
    (ht : truthy (getField body "pageToBeCreatedTitle") = true)
    (hs : truthy (getField body "wikiSpaceKey") = true) :
    (handler (some body) files (AxiosOutcome.success d)).response.body =
      RespBody.success "Confluence page generated successfully"
        (claimFirstNonEmptyUrl d ((getField body "wikiSpaceKey").getD "")
          ((getField body "pageToBeCreatedTitle").getD "")) := by
  rw [← extractPageUrl_eq_firstNonEmpty]
  simp [handler, ht, hs]

/-- Witness for c5_amended_first_nonempty_or_fallback at the
Scenario E input: no recognizable URL field, so the response pageUrl
is the fallback template. -/
theorem c5_witness :
    (handler (some [("pageToBeCreatedTitle", "Service X"), ("wikiSpaceKey", "ENG")]) []
        (AxiosOutcome.success { pageURL := none, pageUrl := none, confluencePageUrl := none, url := none })).response.body =
      RespBody.success "Confluence page generated successfully"
        (claimFirstNonEmptyUrl { pageURL := none, pageUrl := none, confluencePageUrl := none, url := none }
          ((getField [("pageToBeCreatedTitle", "Service X"), ("wikiSpaceKey", "ENG")] "wikiSpaceKey").getD "")
          ((getField [("pageToBeCreatedTitle", "Service X"), ("wikiSpaceKey", "ENG")] "pageToBeCreatedTitle").getD "")) :=
  c5_amended_first_nonempty_or_fallback
    [("pageToBeCreatedTitle", "Service X"), ("wikiSpaceKey", "ENG")] []
    { pageURL := none, pageUrl := none, confluencePageUrl := none, url := none }
    (by decide) (by decide)

/-- Sanity: the fallback template collapses each whitespace run of
the title to one plus sign. -/
theorem fallbackUrl_whitespace_runs :
    fallbackUrl "ENG" "Service  X  v2" = "https://wiki.intel.com/display/ENG/Service+X+v2" := by
  decide

/-- C4: given files all accepted by the filter, the assembled payload
is the metadata part followed by the category groups in fixed order;
the concatenation of the four groups is a permutation of the accepted
files (no file dropped, each in exactly one category); each group
preserves arrival order (sublist); and every accepted file
contributes a part carrying its original name, MIME type and stored
path.  Determinism of the assembly is immediate because
assemblePayload is a function of its two arguments. -/
theorem c4_payload_assembly (body : ReqBody) (files : List UploadedFile)
    (hacc : ∀ f ∈ files, allowedFields.contains f.fieldname) :
    assemblePayload body files =
      PayloadPart.dataPart (mkPageData body files) ::
        ((files.filter (fun f => f.fieldname == "tddIrdFiles")).map (filePartOf "tddIrdFiles") ++
         (files.filter (fun f => f.fieldname == "postmanFiles")).map (filePartOf "postmanFiles") ++
         (files.filter (fun f => f.fieldname == "commFiles")).map (filePartOf "commFiles") ++
         (files.filter (fun f => f.fieldname == "files")).map (filePartOf "files")) ∧
    (files.filter (fun f => f.fieldname == "tddIrdFiles") ++
     files.filter (fun f => f.fieldname == "postmanFiles") ++
     files.filter (fun f => f.fieldname == "commFiles") ++
     files.filter (fun f => f.fieldname == "files")).Perm files ∧
    ((files.filter (fun f => f.fieldname == "tddIrdFiles")).Sublist files ∧
     (files.filter (fun f => f.fieldname == "postmanFiles")).Sublist files ∧
     (files.filter (fun f => f.fieldname == "commFiles")).Sublist files ∧
     (files.filter (fun f => f.fieldname == "files")).Sublist files) ∧
    (∀ f ∈ files,
      PayloadPart.filePart f.fieldname f.originalname f.mimetype f.path ∈ assemblePayload body files) := by
  refine ⟨rfl, ?_, ⟨List.filter_sublist _, List.filter_sublist _, List.filter_sublist _, List.filter_sublist _⟩, ?_⟩
  · rw [List.perm_iff_count]
    intro a
    simp only [List.count_append]
    by_cases ha : a ∈ files
    · have hf := hacc a ha
      simp [allowedFields] at hf
      rcases hf with h | h | h | h
      · rw [count_filter_ne a files "postmanFiles" (by simp [h]),
            count_filter_ne a files "commFiles" (by simp [h]),
            count_filter_ne a files "files" (by simp [h]),
            List.count_filter (by simp [h])]
        omega
      · rw [count_filter_ne a files "tddIrdFiles" (by simp [h]),
            count_filter_ne a files "commFiles" (by simp [h]),
            count_filter_ne a files "files" (by simp [h]),
            List.count_filter (by simp [h])]
        omega
      · rw [count_filter_ne a files "tddIrdFiles" (by simp [h]),
            count_filter_ne a files "postmanFiles" (by simp [h]),
            count_filter_ne a files "files" (by simp [h]),
            List.count_filter (by simp [h])]
        omega
      · rw [count_filter_ne a files "tddIrdFiles" (by simp [h]),
            count_filter_ne a files "postmanFiles" (by simp [h]),
            count_filter_ne a files "commFiles" (by simp [h]),
            List.count_filter (by simp [h])]
        omega
    · have hz : files.count a = 0 := List.count_eq_zero.mpr ha
      have hx : ∀ s : String, List.count a (files.filter (fun f => f.fieldname == s)) = 0 := by
        intro s
        rw [List.count_eq_zero]
        intro hmem
        exact ha (List.mem_of_mem_filter hmem)
      rw [hz, hx, hx, hx, hx]
  · intro f hf
    have h4 := hacc f hf
    simp [allowedFields] at h4
    rcases h4 with h | h | h | h
    · have hmap : PayloadPart.filePart f.fieldname f.originalname f.mimetype f.path ∈
          (files.filter (fun g => g.fieldname == "tddIrdFiles")).map (filePartOf "tddIrdFiles") := by
        have hmemf : f ∈ files.filter (fun g => g.fieldname == "tddIrdFiles") :=
          List.mem_filter.mpr ⟨hf, by simpa using h⟩
        have := List.mem_map_of_mem (filePartOf "tddIrdFiles") hmemf
        simpa [filePartOf, h] using this
      exact List.mem_cons_of_mem _
        (List.mem_append_left _ (List.mem_append_left _ (List.mem_append_left _ hmap)))
    · have hmap : PayloadPart.filePart f.fieldname f.originalname f.mimetype f.path ∈
          (files.filter (fun g => g.fieldname == "postmanFiles")).map (filePartOf "postmanFiles") := by
        have hmemf : f ∈ files.filter (fun g => g.fieldname == "postmanFiles") :=
          List.mem_filter.mpr ⟨hf, by simpa using h⟩
        have := List.mem_map_of_mem (filePartOf "postmanFiles") hmemf
        simpa [filePartOf, h] using this
      exact List.mem_cons_of_mem _
        (List.mem_append_left _ (List.mem_append_left _ (List.mem_append_right _ hmap)))
    · have hmap : PayloadPart.filePart f.fieldname f.originalname f.mimetype f.path ∈
          (files.filter (fun g => g.fieldname == "commFiles")).map (filePartOf "commFiles") := by
        have hmemf : f ∈ files.filter (fun g => g.fieldname == "commFiles") :=
          List.mem_filter.mpr ⟨hf, by simpa using h⟩
        have := List.mem_map_of_mem (filePartOf "commFiles") hmemf
        simpa [filePartOf, h] using this
      exact List.mem_cons_of_mem _
        (List.mem_append_left _ (List.mem_append_right _ hmap))
    · have hmap : PayloadPart.filePart f.fieldname f.originalname f.mimetype f.path ∈
          (files.filter (fun g => g.fieldname == "files")).map (filePartOf "files") := by
        have hmemf : f ∈ files.filter (fun g => g.fieldname == "files") :=
          List.mem_filter.mpr ⟨hf, by simpa using h⟩
        have := List.mem_map_of_mem (filePartOf "files") hmemf
        simpa [filePartOf, h] using this
      exact List.mem_cons_of_mem _ (List.mem_append_right _ hmap)

/-- C10: two request bodies agreeing on the sixteen recognized text
fields produce identical handler runs for the same files and axios
outcome: same outbound payload, same response, same cleanup.
Unrecognized extra text fields are never read, never rejected and
never forwarded. -/
theorem c10_unrecognized_fields_ignored (b1 b2 : ReqBody) (files : List UploadedFile)
    (outcome : AxiosOutcome)
    (h : ∀ k ∈ recognizedTextFields, getField b1 k = getField b2 k) :
    handler (some b1) files outcome = handler (some b2) files outcome := by
  have htitle := h "pageToBeCreatedTitle" (by decide)
  have hsk := h "wikiSpaceKey" (by decide)
  have hpd : mkPageData b1 files = mkPageData b2 files := by
    unfold mkPageData
    simp only [PageData.mk.injEq]
    refine ⟨h _ (by decide), h _ (by decide), h _ (by decide), h _ (by decide),
            h _ (by decide), h _ (by decide), h _ (by decide), h _ (by decide),
            h _ (by decide), h _ (by decide), h _ (by decide), h _ (by decide),
            h _ (by decide), h _ (by decide), h _ (by decide), by trivial⟩
  have hap : assemblePayload b1 files = assemblePayload b2 files := by
    unfold assemblePayload
    rw [hpd]
  simp only [handler]
  rw [htitle, hsk, hap]

/-- Witness for c10_unrecognized_fields_ignored: an extra text field
with an unrecognized name changes nothing. -/
theorem c10_witness :
    handler (some [("pageToBeCreatedTitle", "T"), ("wikiSpaceKey", "ENG")]) []
        (AxiosOutcome.noResponse "t") =
      handler (some [("pageToBeCreatedTitle", "T"), ("wikiSpaceKey", "ENG"), ("unexpectedExtra", "zzz")]) []
        (AxiosOutcome.noResponse "t") :=
  c10_unrecognized_fields_ignored
    [("pageToBeCreatedTitle", "T"), ("wikiSpaceKey", "ENG")]
    [("pageToBeCreatedTitle", "T"), ("wikiSpaceKey", "ENG"), ("unexpectedExtra", "zzz")]
    [] (AxiosOutcome.noResponse "t") (by decide)

/-- In the multer intake, the first part whose field name fails the
filter aborts the whole intake with the error naming that field. -/
theorem intake_error_of_find (parts : List (FilePart × Nat)) (q : FilePart × Nat)
    (h : parts.find? (fun pr => !(allowedFields.contains pr.1.fieldname)) = some q) :
    intake parts = Except.error ("Unexpected field: " ++ q.1.fieldname) := by
  induction parts with
  | nil => simp at h
  | cons p rest ih =>
    obtain ⟨fp, now⟩ := p
    by_cases hb : fp.fieldname ∈ allowedFields
    · have hfind : List.find? (fun pr => !(allowedFields.contains pr.1.fieldname)) rest = some q := by
        rw [List.find?_cons] at h
        simpa [hb] using h
      have hrest := ih hfind
      simp only [intake]
      simp [fileFilter, hb, hrest, Except.map]
    · have hq : (fp, now) = q := by
        rw [List.find?_cons] at h
        simpa [hb] using h
      subst hq
      simp only [intake]
      simp [fileFilter, hb]

/-- C3 counterexample: a file part under the disallowed field name
randomField aborts the request, but the plain Error reaches the
Express default error handler, so the client sees status 500, not the
400 the claim demands. -/
theorem c3_counterexample_status_500 :
    (pipeline [("pageToBeCreatedTitle", "T"), ("wikiSpaceKey", "ENG")]
        [({ fieldname := "randomField", originalname := "x.txt", mimetype := "text/plain" }, 1000)]
        (AxiosOutcome.noResponse "unused")).response.status = 500 ∧
    (pipeline [("pageToBeCreatedTitle", "T"), ("wikiSpaceKey", "ENG")]
        [({ fieldname := "randomField", originalname := "x.txt", mimetype := "text/plain" }, 1000)]
        (AxiosOutcome.noResponse "unused")).response.status ≠ 400 ∧
    (pipeline [("pageToBeCreatedTitle", "T"), ("wikiSpaceKey", "ENG")]
        [({ fieldname := "randomField", originalname := "x.txt", mimetype := "text/plain" }, 1000)]
        (AxiosOutcome.noResponse "unused")).response.body =
      RespBody.expressDefault "Unexpected field: randomField" := by
  decide

/-- C3 amended: a multipart request containing any file part with a
field name outside the allow-list fails fast with the error naming
the first offending field, surfaced as a 500 response (the plain
Error from the fileFilter reaches the Express default error handler,
which uses status 500); no upstream call is made, no payload is
assembled and no files are retained. -/
theorem c3_amended_unknown_field_rejected (textBody : ReqBody) (parts : List (FilePart × Nat))
    (outcome : AxiosOutcome) (q : FilePart × Nat)
    (h : parts.find? (fun pr => !(allowedFields.contains pr.1.fieldname)) = some q) :
    pipeline textBody parts outcome =
      { response := { status := 500,
                      body := RespBody.expressDefault ("Unexpected field: " ++ q.1.fieldname) }
        upstreamCalled := false
        payload := none
        deletedPaths := []
        finalStore := [] } := by
  unfold pipeline
  rw [intake_error_of_find parts q h]

/-- Witness for c3_amended_unknown_field_rejected at the Scenario D
input. -/
theorem c3_witness :
    pipeline [("pageToBeCreatedTitle", "T"), ("wikiSpaceKey", "ENG")]
        [({ fieldname := "randomField", originalname := "x.txt", mimetype := "text/plain" }, 1000)]
        (AxiosOutcome.noResponse "unused") =
      { response := { status := 500,
                      body := RespBody.expressDefault ("Unexpected field: " ++
                        ({ fieldname := "randomField", originalname := "x.txt", mimetype := "text/plain" } : FilePart).fieldname) }
        upstreamCalled := false
        payload := none
        deletedPaths := []
        finalStore := [] } :=
  c3_amended_unknown_field_rejected
    [("pageToBeCreatedTitle", "T"), ("wikiSpaceKey", "ENG")]
    [({ fieldname := "randomField", originalname := "x.txt", mimetype := "text/plain" }, 1000)]
    (AxiosOutcome.noResponse "unused")
    ({ fieldname := "randomField", originalname := "x.txt", mimetype := "text/plain" }, 1000)
    (by decide)

/-- Concrete body for the C4 witness. -/
def c4Body : ReqBody := [("pageToBeCreatedTitle", "T"), ("wikiSpaceKey", "ENG")]

/-- Concrete mixed upload set for the C4 witness. -/
def c4Files : List UploadedFile :=
  [{ fieldname := "postmanFiles", originalname := "a.json", mimetype := "application/json", path := "uploads/1-a.json" },
   { fieldname := "tddIrdFiles", originalname := "b.docx", mimetype := "application/msword", path := "uploads/2-b.docx" },
   { fieldname := "postmanFiles", originalname := "c.json", mimetype := "application/json", path := "uploads/3-c.json" }]

/-- Witness for c4_payload_assembly at a concrete mixed upload set. -/
theorem c4_witness :
    assemblePayload c4Body c4Files =
      PayloadPart.dataPart (mkPageData c4Body c4Files) ::
        ((c4Files.filter (fun f => f.fieldname == "tddIrdFiles")).map (filePartOf "tddIrdFiles") ++
         (c4Files.filter (fun f => f.fieldname == "postmanFiles")).map (filePartOf "postmanFiles") ++
         (c4Files.filter (fun f => f.fieldname == "commFiles")).map (filePartOf "commFiles") ++
         (c4Files.filter (fun f => f.fieldname == "files")).map (filePartOf "files")) ∧
    (c4Files.filter (fun f => f.fieldname == "tddIrdFiles") ++
     c4Files.filter (fun f => f.fieldname == "postmanFiles") ++
     c4Files.filter (fun f => f.fieldname == "commFiles") ++
     c4Files.filter (fun f => f.fieldname == "files")).Perm c4Files ∧
    ((c4Files.filter (fun f => f.fieldname == "tddIrdFiles")).Sublist c4Files ∧
     (c4Files.filter (fun f => f.fieldname == "postmanFiles")).Sublist c4Files ∧
     (c4Files.filter (fun f => f.fieldname == "commFiles")).Sublist c4Files ∧
     (c4Files.filter (fun f => f.fieldname == "files")).Sublist c4Files) ∧
    (∀ f ∈ c4Files,
      PayloadPart.filePart f.fieldname f.originalname f.mimetype f.path ∈ assemblePayload c4Body c4Files) :=
  c4_payload_assembly c4Body c4Files (by decide)

/-! ## Decimal-printing facts, for the storedFilename analysis -/

/-- The decimal digit characters of `n`, most significant first: what
`Nat.toDigitsCore` produces at base 10 with sufficient fuel. -/
def natChars (n : Nat) : List Char :=
  if n < 10 then [Nat.digitChar n]
  else natChars (n / 10) ++ [Nat.digitChar (n % 10)]
termination_by n
decreasing_by exact Nat.div_lt_self (by omega) (by omega)

/-- toDigitsCore with fuel above `n` computes `natChars n` in front
of the accumulator. -/
theorem toDigitsCore_eq_natChars (fuel : Nat) :
    ∀ (n : Nat) (ds : List Char), n < fuel →
      Nat.toDigitsCore 10 fuel n ds = natChars n ++ ds := by
  induction fuel with
  | zero => intro n ds h; omega
  | succ f ih =>
    intro n ds h
    by_cases h10 : n < 10
    · have hdiv : n / 10 = 0 := Nat.div_eq_of_lt h10
      simp only [Nat.toDigitsCore]
      rw [natChars]
      simp [hdiv, h10, Nat.mod_eq_of_lt h10]
    · have hne : ¬ (n / 10 = 0) := by omega
      have hlt : n / 10 < f := by
        have h2 : n / 10 < n := Nat.div_lt_self (by omega) (by omega)
        omega
      simp only [Nat.toDigitsCore]
      rw [if_neg hne, ih (n / 10) (Nat.digitChar (n % 10) :: ds) hlt]
      conv_rhs => rw [natChars]
      simp [h10]

/-- `Nat.repr` is the string of `natChars`. -/
theorem repr_eq_natChars (n : Nat) : Nat.repr n = String.mk (natChars n) := by
  show (Nat.toDigits 10 n).asString = _
  rw [Nat.toDigits, toDigitsCore_eq_natChars (n + 1) n [] (Nat.lt_succ_self n)]
  simp [List.asString]

/-- Decimal value of a digit-character list, most significant first. -/
def charsVal (l : List Char) : Nat :=
  l.foldl (fun a c => 10 * a + (c.toNat - 48)) 0

/-- The code point of a decimal digit character. -/
theorem digitChar_toNat (d : Nat) (h : d < 10) : (Nat.digitChar d).toNat = 48 + d := by
  interval_cases d <;> decide

/-- Decimal digit characters are never the dash. -/
theorem digitChar_ne_dash (d : Nat) (h : d < 10) : Nat.digitChar d ≠ '-' := by
  interval_cases d <;> decide

/-- `charsVal` recovers the number from its digit characters. -/
theorem charsVal_natChars (n : Nat) : charsVal (natChars n) = n := by
  induction n using Nat.strong_induction_on with
  | _ n ih =>
    by_cases h10 : n < 10
    · rw [natChars]
      simp [h10, charsVal, digitChar_toNat n h10]
    · rw [natChars]
      simp only [h10, if_false]
      rw [charsVal, List.foldl_append]
      have ihv := ih (n / 10) (Nat.div_lt_self (by omega) (by omega))
      rw [show List.foldl (fun a c => 10 * a + (c.toNat - 48)) 0 (natChars (n / 10)) =
            charsVal (natChars (n / 10)) from rfl, ihv]
      simp only [List.foldl]
      rw [digitChar_toNat (n % 10) (Nat.mod_lt n (by omega))]
      omega

/-- No dash occurs among the digit characters of a number. -/
theorem natChars_ne_dash (n : Nat) : ∀ c ∈ natChars n, c ≠ '-' := by
  induction n using Nat.strong_induction_on with
  | _ n ih =>
    by_cases h10 : n < 10
    · rw [natChars]
      simp [h10]
      exact digitChar_ne_dash n h10
    · rw [natChars]
      simp only [h10, if_false]
      intro c hc
      rcases List.mem_append.mp hc with hc | hc
      · exact ih (n / 10) (Nat.div_lt_self (by omega) (by omega)) c hc
      · have : c = Nat.digitChar (n % 10) := by simpa using hc
        subst this
        exact digitChar_ne_dash (n % 10) (Nat.mod_lt n (by omega))

/-- Digit-character lists determine the number. -/
theorem natChars_injective (m n : Nat) (h : natChars m = natChars n) : m = n := by
  have h2 := congrArg charsVal h
  rwa [charsVal_natChars, charsVal_natChars] at h2

/-- Decimal printing of naturals is injective. -/
theorem nat_repr_injective (m n : Nat) (h : Nat.repr m = Nat.repr n) : m = n := by
  apply natChars_injective
  have h2 := congrArg String.data h
  rw [repr_eq_natChars, repr_eq_natChars] at h2
  exact h2

/-- Splitting at the first dash: two dash-free lists followed by a
dash and a remainder agree componentwise when their concatenations
agree. -/
theorem append_dash_inj (l1 : List Char) : ∀ (l2 r1 r2 : List Char),
    (∀ c ∈ l1, c ≠ '-') → (∀ c ∈ l2, c ≠ '-') →
    l1 ++ '-' :: r1 = l2 ++ '-' :: r2 → l1 = l2 ∧ r1 = r2 := by
  induction l1 with
  | nil =>
    intro l2 r1 r2 _ h2 h
    cases l2 with
    | nil => simpa using h
    | cons d l2 =>
      simp at h
      exact absurd h.1.symm (h2 d (by simp))
  | cons c l1 ih =>
    intro l2 r1 r2 h1 h2 h
    cases l2 with
    | nil =>
      simp at h
      exact absurd h.1 (h1 c (by simp))
    | cons d l2 =>
      simp at h
      obtain ⟨hcd, hrest⟩ := h
      obtain ⟨he, hr⟩ := ih l2 r1 r2
        (fun x hx => h1 x (List.mem_cons_of_mem _ hx))
        (fun x hx => h2 x (List.mem_cons_of_mem _ hx)) hrest
      exact ⟨by rw [hcd, he], hr⟩

/-- The stored file name determines both the timestamp and the
original name. -/
theorem storedFilename_inj (t1 t2 : Nat) (n1 n2 : String)
    (h : storedFilename t1 n1 = storedFilename t2 n2) : t1 = t2 ∧ n1 = n2 := by
  unfold storedFilename at h
  have hd := congrArg String.data h
  have hdash : ("-" : String).data = ['-'] := rfl
  simp only [String.data_append, hdash, List.append_assoc, List.singleton_append] at hd
  have h1 : ∀ c ∈ (Nat.repr t1).data, c ≠ '-' := by
    rw [repr_eq_natChars]
    exact natChars_ne_dash t1
  have h2 : ∀ c ∈ (Nat.repr t2).data, c ≠ '-' := by
    rw [repr_eq_natChars]
    exact natChars_ne_dash t2
  obtain ⟨hrepr, hdata⟩ := append_dash_inj _ _ _ _ h1 h2 hd
  constructor
  · exact nat_repr_injective t1 t2 (by
      apply String.ext
      exact hrepr)
  · apply String.ext
    exact hdata

/-- One part of the C7 counterexample pair. -/
def c7PartA : FilePart :=
  { fieldname := "tddIrdFiles", originalname := "report.docx", mimetype := "application/msword" }

/-- The other part of the C7 counterexample pair: same original name,
different category. -/
def c7PartB : FilePart :=
  { fieldname := "commFiles", originalname := "report.docx", mimetype := "application/msword" }

/-- C7 counterexample: two distinct accepted files written in the
same Date.now() millisecond with the same original name receive the
SAME stored path — the prefix is not unique. -/
theorem c7_counterexample_same_millisecond :
    intake [(c7PartA, 1000), (c7PartB, 1000)] =
      Except.ok [storeOne c7PartA 1000, storeOne c7PartB 1000] ∧
    storeOne c7PartA 1000 ≠ storeOne c7PartB 1000 ∧
    (storeOne c7PartA 1000).path = (storeOne c7PartB 1000).path := by
  refine ⟨rfl, by decide, rfl⟩

/-- C7 amended: stored paths are distinct whenever the two writes
observe different Date.now() values or the original names differ;
within one millisecond two files with the same original name collide. -/
theorem c7_amended_distinct_when_inputs_differ (p1 p2 : FilePart) (t1 t2 : Nat)
    (h : t1 ≠ t2 ∨ p1.originalname ≠ p2.originalname) :
    (storeOne p1 t1).path ≠ (storeOne p2 t2).path := by
  intro he
  simp only [storeOne] at he
  have hfn : storedFilename t1 p1.originalname = storedFilename t2 p2.originalname := by
    have hd := congrArg String.data he
    simp only [String.data_append] at hd
    apply String.ext
    exact List.append_cancel_left hd
  obtain ⟨ht, hn⟩ := storedFilename_inj t1 t2 p1.originalname p2.originalname hfn
  rcases h with h | h
  · exact h ht
  · exact h hn

/-- Witness for c7_amended_distinct_when_inputs_differ: consecutive
milliseconds give distinct paths even for identical names. -/
theorem c7_witness :
    (storeOne c7PartA 1000).path ≠ (storeOne c7PartA 1001).path :=
  c7_amended_distinct_when_inputs_differ c7PartA c7PartA 1000 1001 (Or.inl (by decide))

end ConfluenceBackend
